import Mathlib

set_option maxRecDepth 100000

/-!
Verification of the Telegram PNBA adapter core.

A shallow embedding of `src/adapter.py`: the `SessionRegistry` (per-phone
session directories keyed by `md5(phone_number)` holding a JSON registry
record) and the `TelegramPNBAAdapter` operations (send code, validate code,
validate password, invalidate session, send message).  The filesystem is
modelled explicitly as a state (`FS`); registry file contents are modelled
as parsed JSON records; the external Telethon client is modelled as an
oracle giving the outcome of each remote call, and each adapter operation
returns its result (or the propagated exception), the final filesystem
state, and the trace of external-call events.
-/

/-- JSON values, as stored in a registry record. -/
inductive JsonVal where
  | jnull : JsonVal
  | jbool : Bool → JsonVal
  | jnum : Int → JsonVal
  | jstr : String → JsonVal
  | jarr : List JsonVal → JsonVal
  | jobj : List (String × JsonVal) → JsonVal

/-- A registry record: a Python `dict` with string keys, in insertion order. -/
abbrev Record := List (String × JsonVal)

/-- `d.get(k)`: first (only) binding of `k` in the record, if any. -/
def dictGet (d : Record) (k : String) : Option JsonVal :=
  match d with
  | [] => none
  | (k', v) :: rest => if k' = k then some v else dictGet rest k

/-- Set key `k` to `v`, Python-`dict` style: replace in place if the key is
present, otherwise append at the end. -/
def dictSet (d : Record) (k : String) (v : JsonVal) : Record :=
  match d with
  | [] => [(k, v)]
  | (k', v') :: rest => if k' = k then (k', v) :: rest else (k', v') :: dictSet rest k v

/-- `d.update(upd)`: shallow merge, new values overriding existing keys. -/
def dictUpdate (d : Record) (upd : Record) : Record :=
  match upd with
  | [] => d
  | (k, v) :: rest => dictUpdate (dictSet d k v) rest

/-- Boolean prefix test on character lists. -/
def listPref : List Char → List Char → Bool
  | [], _ => true
  | _ :: _, [] => false
  | a :: as, b :: bs => a == b && listPref as bs

/-- Boolean string prefix test: `strPref p s` iff `p` is a prefix of `s`. -/
def strPref (p s : String) : Bool := listPref p.data s.data

/-- The filesystem state: the set of existing directories and the registry
files, each mapped to its (parsed) JSON record content. -/
structure FS where
  dirs : List String
  files : List (String × Record)

/-- Look up a file's content by path. -/
def lookupFile (fs : FS) (p : String) : Option Record :=
  match fs.files.find? (fun q => q.1 == p) with
  | some q => some q.2
  | none => none

/-- `os.path.isdir`. -/
def FS.isDir (fs : FS) (p : String) : Bool := fs.dirs.contains p

/-- `os.path.exists` for a registry file. -/
def FS.fileExists (fs : FS) (p : String) : Bool := (lookupFile fs p).isSome

/-- `os.makedirs(p, exist_ok=True)`. -/
def FS.mkdirs (fs : FS) (p : String) : FS :=
  if fs.dirs.contains p then fs else { fs with dirs := fs.dirs ++ [p] }

/-- `shutil.rmtree(p)`: remove the directory `p` and everything under it. -/
def FS.rmtree (fs : FS) (p : String) : FS :=
  { dirs := fs.dirs.filter (fun d => !(d == p || strPref (p ++ "/") d)),
    files := fs.files.filter (fun q => !(strPref (p ++ "/") q.1)) }

/-- Overwrite (or create) the file at `p` with content `data`. -/
def FS.writeFile (fs : FS) (p : String) (data : Record) : FS :=
  { fs with files := setFileAssoc fs.files p data }
where
  setFileAssoc : List (String × Record) → String → Record → List (String × Record)
    | [], k, v => [(k, v)]
    | (k', v') :: rest, k, v =>
      if k' == k then (k', v) :: rest else (k', v') :: setFileAssoc rest k v

/-- `os.remove(p)`. -/
def FS.removeFile (fs : FS) (p : String) : FS :=
  { fs with files := fs.files.filter (fun q => !(q.1 == p)) }

/-- Is there any file strictly under directory `d`? -/
def FS.hasFilesUnder (fs : FS) (d : String) : Bool :=
  fs.files.any (fun q => strPref (d ++ "/") q.1)

/-- `os.path.join` as used here (relative second component). -/
def pjoin (a b : String) : String := a ++ "/" ++ b

/-! ## MD5 (`hashlib.md5(...).hexdigest()`)

The directory/session name for a phone number is the MD5 hex digest of its
UTF-8 encoding; the algorithm below is RFC 1321 over byte lists, with 32-bit
words as `Nat` reduced mod `2^32`. -/

/-- UTF-8 encoding of one code point. -/
def utf8Char (c : Char) : List Nat :=
  let n := c.toNat
  if n < 128 then [n]
  else if n < 2048 then [192 + n / 64, 128 + n % 64]
  else if n < 65536 then [224 + n / 4096, 128 + (n / 64) % 64, 128 + n % 64]
  else [240 + n / 262144, 128 + (n / 4096) % 64, 128 + (n / 64) % 64, 128 + n % 64]

/-- `s.encode("utf-8")` as a list of bytes. -/
def utf8Encode (s : String) : List Nat :=
  s.data.foldr (fun c acc => utf8Char c ++ acc) []

/-- 2^32. -/
def M32 : Nat := 4294967296

/-- Addition mod 2^32. -/
def madd (a b : Nat) : Nat := (a + b) % M32

/-- 32-bit bitwise complement. -/
def mnot (a : Nat) : Nat := a ^^^ 4294967295

/-- 32-bit left rotation. -/
def rotl (x n : Nat) : Nat := ((x <<< n) % M32) ||| (x >>> (32 - n))

/-- The MD5 per-round constants `K[i] = floor(abs(sin(i+1)) * 2^32)`. -/
def mdK : List Nat :=
  [0xd76aa478, 0xe8c7b756, 0x242070db, 0xc1bdceee,
   0xf57c0faf, 0x4787c62a, 0xa8304613, 0xfd469501,
   0x698098d8, 0x8b44f7af, 0xffff5bb1, 0x895cd7be,
   0x6b901122, 0xfd987193, 0xa679438e, 0x49b40821,
   0xf61e2562, 0xc040b340, 0x265e5a51, 0xe9b6c7aa,
   0xd62f105d, 0x02441453, 0xd8a1e681, 0xe7d3fbc8,
   0x21e1cde6, 0xc33707d6, 0xf4d50d87, 0x455a14ed,
   0xa9e3e905, 0xfcefa3f8, 0x676f02d9, 0x8d2a4c8a,
   0xfffa3942, 0x8771f681, 0x6d9d6122, 0xfde5380c,
   0xa4beea44, 0x4bdecfa9, 0xf6bb4b60, 0xbebfbc70,
   0x289b7ec6, 0xeaa127fa, 0xd4ef3085, 0x04881d05,
   0xd9d4d039, 0xe6db99e5, 0x1fa27cf8, 0xc4ac5665,
   0xf4292244, 0x432aff97, 0xab9423a7, 0xfc93a039,
   0x655b59c3, 0x8f0ccc92, 0xffeff47d, 0x85845dd1,
   0x6fa87e4f, 0xfe2ce6e0, 0xa3014314, 0x4e0811a1,
   0xf7537e82, 0xbd3af235, 0x2ad7d2bb, 0xeb86d391]

/-- The MD5 per-round left-rotation amounts. -/
def mdS : List Nat :=
  [7, 12, 17, 22, 7, 12, 17, 22, 7, 12, 17, 22, 7, 12, 17, 22,
   5, 9, 14, 20, 5, 9, 14, 20, 5, 9, 14, 20, 5, 9, 14, 20,
   4, 11, 16, 23, 4, 11, 16, 23, 4, 11, 16, 23, 4, 11, 16, 23,
   6, 10, 15, 21, 6, 10, 15, 21, 6, 10, 15, 21, 6, 10, 15, 21]

/-- Little-endian 32-bit word `j` of a 64-byte block. -/
def wordAt (block : List Nat) (j : Nat) : Nat :=
  block.getD (4 * j) 0 + 256 * block.getD (4 * j + 1) 0 +
    65536 * block.getD (4 * j + 2) 0 + 16777216 * block.getD (4 * j + 3) 0

/-- One MD5 round step `i` on state `(a, b, c, d)`. -/
def md5Step (block : List Nat) (st : Nat × Nat × Nat × Nat) (i : Nat) :
    Nat × Nat × Nat × Nat :=
  let (a, b, c, d) := st
  let fg : Nat × Nat :=
    if i < 16 then ((b &&& c) ||| (mnot b &&& d), i)
    else if i < 32 then ((d &&& b) ||| (mnot d &&& c), (5 * i + 1) % 16)
    else if i < 48 then (b ^^^ c ^^^ d, (3 * i + 5) % 16)
    else (c ^^^ (b ||| mnot d), (7 * i) % 16)
  let f := (fg.1 + a + mdK.getD i 0 + wordAt block fg.2) % M32
  (d, madd b (rotl f (mdS.getD i 0)), b, c)

/-- Process one 64-byte block. -/
def md5Block (st : Nat × Nat × Nat × Nat) (block : List Nat) :
    Nat × Nat × Nat × Nat :=
  let r := (List.range 64).foldl (md5Step block) st
  (madd st.1 r.1, madd st.2.1 r.2.1, madd st.2.2.1 r.2.2.1, madd st.2.2.2 r.2.2.2)

/-- Process `k` consecutive 64-byte blocks. -/
def md5Blocks : Nat → List Nat → Nat × Nat × Nat × Nat → Nat × Nat × Nat × Nat
  | 0, _, st => st
  | k + 1, bytes, st => md5Blocks k (bytes.drop 64) (md5Block st (bytes.take 64))

/-- Little-endian 8-byte encoding of `n`. -/
def le8 (n : Nat) : List Nat := (List.range 8).map (fun i => (n >>> (8 * i)) % 256)

/-- MD5 padding: `0x80`, zeros to 56 mod 64, then the bit length (64-bit LE). -/
def md5Pad (msg : List Nat) : List Nat :=
  msg ++ [128] ++ List.replicate ((120 - (msg.length + 1) % 64) % 64) 0 ++
    le8 ((8 * msg.length) % (2 ^ 64))

/-- The four bytes of a 32-bit word, little-endian. -/
def wordBytes (w : Nat) : List Nat :=
  [w % 256, (w >>> 8) % 256, (w >>> 16) % 256, (w >>> 24) % 256]

/-- Lower-case hex digit. -/
def hexDigit (n : Nat) : Char :=
  if n < 10 then Char.ofNat (48 + n) else Char.ofNat (87 + n)

/-- Two-digit lower-case hex of a byte. -/
def byteHex (b : Nat) : String := String.mk [hexDigit (b / 16), hexDigit (b % 16)]

/-- MD5 hex digest of a byte list. -/
def md5Hex (msg : List Nat) : String :=
  let padded := md5Pad msg
  let st := md5Blocks (padded.length / 64) padded
    (0x67452301, 0xefcdab89, 0x98badcfe, 0x10325476)
  ((wordBytes st.1 ++ wordBytes st.2.1 ++ wordBytes st.2.2.1 ++
      wordBytes st.2.2.2).map byteHex).foldl (· ++ ·) ""

/-- `hashlib.md5(s.encode("utf-8")).hexdigest()`. -/
def md5HexOfString (s : String) : String := md5Hex (utf8Encode s)

/-! ## SessionRegistry -/

/-- `DEFAULT_SESSIONS_DIR` (the absolute prefix is irrelevant to the logic). -/
def DEFAULT_SESSIONS_DIR : String := "sessions"

/-- `SessionRegistry.REGISTRY_FILENAME`. -/
def REGISTRY_FILENAME : String := "registry.json"

/-- Python truthiness of a string: non-empty strings are truthy. -/
def strTruthy (s : String) : Bool := !(s == "")

/-- The fields of a constructed `SessionRegistry`. -/
structure SessionRegistry where
  base_path : String
  phone_number : String
  session_dir : String
  registry_path : String

/-- `SessionRegistry.get_or_create_session_path(overwrite)`: make the base
directory, derive the session directory name as `md5(phone_number)`, remove
the directory tree first when `overwrite` is truthy, then create it. -/
def get_or_create_session_path (base_path phone_number : String)
    (overwrite : Bool) (fs : FS) : String × FS :=
  let fs1 := fs.mkdirs base_path
  let dirname := md5HexOfString phone_number
  let session_dir := pjoin base_path dirname
  let fs2 := if overwrite && fs1.isDir session_dir then fs1.rmtree session_dir else fs1
  (session_dir, fs2.mkdirs session_dir)

/-- `base_path or DEFAULT_SESSIONS_DIR` (Python `or`: falsy means default). -/
def basePathOf (base_path : Option String) : String :=
  match base_path with
  | some s => if strTruthy s then s else DEFAULT_SESSIONS_DIR
  | none => DEFAULT_SESSIONS_DIR

/-- The session directory for a phone number. -/
def sessionDirOf (phone_number : String) (base_path : Option String) : String :=
  pjoin (basePathOf base_path) (md5HexOfString phone_number)

/-- The registry file path for a phone number. -/
def registryPathOf (phone_number : String) (base_path : Option String) : String :=
  pjoin (sessionDirOf phone_number base_path) REGISTRY_FILENAME

/-- `SessionRegistry.__init__(phone_number, base_path)`.  Note that the
source passes `phone_number` itself as the `overwrite` argument of
`get_or_create_session_path`, so `overwrite` is the truthiness of the
phone number. -/
def SessionRegistry.init (phone_number : String) (base_path : Option String)
    (fs : FS) : SessionRegistry × FS :=
  let base := basePathOf base_path
  let r := get_or_create_session_path base phone_number (strTruthy phone_number) fs
  ({ base_path := base, phone_number := phone_number, session_dir := r.1,
     registry_path := pjoin r.1 REGISTRY_FILENAME }, r.2)

/-- `SessionRegistry.get_session_file_path()`. -/
def SessionRegistry.get_session_file_path (r : SessionRegistry) : String :=
  pjoin r.session_dir (md5HexOfString r.phone_number)

/-- `SessionRegistry.write(data)`. -/
def SessionRegistry.write (r : SessionRegistry) (data : Record) (fs : FS) : FS :=
  fs.writeFile r.registry_path data

/-- `SessionRegistry.read()`: the record, or `{}` if the file is missing. -/
def SessionRegistry.read (r : SessionRegistry) (fs : FS) : Record :=
  (lookupFile fs r.registry_path).getD []

/-- `SessionRegistry.update(**kwargs)`: read, shallow-merge, write. -/
def SessionRegistry.update (r : SessionRegistry) (kwargs : Record) (fs : FS) : FS :=
  r.write (dictUpdate (r.read fs) kwargs) fs

/-- `SessionRegistry.clear()`: delete the registry file if it exists and
report whether a file was deleted. -/
def SessionRegistry.clear (r : SessionRegistry) (fs : FS) : Bool × FS :=
  if fs.fileExists r.registry_path then (true, fs.removeFile r.registry_path)
  else (false, fs)

/-! ## The adapter operations

The external Telethon client is modelled by an `Oracle` giving the outcome
(return value or raised exception) of each remote call; each operation
returns `(result-or-exception, final filesystem, external-call trace)`. -/

/-- Exceptions raised by the external client. -/
inductive PyExc where
  | sessionPasswordNeeded : PyExc
  | other : String → PyExc
deriving DecidableEq

/-- Outcome of one external call: a return value or a raised exception. -/
inductive Outcome (α : Type) where
  | ok : α → Outcome α
  | exn : PyExc → Outcome α

/-- The Telethon user returned by `get_me()`. -/
structure TgUser where
  first_name : String
deriving DecidableEq

/-- The result of `send_code_request`. -/
structure SentCode where
  phone_code_hash : String
deriving DecidableEq

/-- Outcomes of the external client's calls for one adapter operation. -/
structure Oracle where
  connect : Outcome Unit
  is_user_authorized : Outcome Bool
  send_code_request : Outcome SentCode
  sign_in : Outcome Unit
  sign_in_password : Outcome Unit
  get_me : Outcome TgUser
  log_out : Outcome Unit
  send_message_req : Outcome Unit
  disconnect : Outcome Unit

/-- Observable events of an adapter operation: the external calls it makes
(with the arguments it passes) and its registry-clear step. -/
inductive Event where
  | connect : Event
  | isUserAuthorized : Event
  | sendCodeRequest : String → Event
  | signIn : String → Option JsonVal → String → Event
  | signInPassword : String → Option JsonVal → Event
  | getMe : Event
  | logOut : Event
  | sendMessageReq : String → String → Event
  | registryClear : Event
  | disconnect : Event

/-- Result of `send_authorization_code`. -/
structure SendCodeResult where
  success : Bool
  message : String
deriving DecidableEq

/-- The `userinfo` mapping. -/
structure UserInfo where
  account_identifier : String
  name : Option String
deriving DecidableEq

/-- Result of `validate_code_and_fetch_user_info`. -/
structure ValidateCodeResult where
  two_step_verification_enabled : Bool
  userinfo : UserInfo
deriving DecidableEq

/-- Result of `validate_password_and_fetch_user_info`. -/
structure ValidatePasswordResult where
  userinfo : UserInfo
deriving DecidableEq

/-- The `finally: await self.client.disconnect()` wrapper: the disconnect
call always runs; if it raises, its exception replaces the body's result. -/
def tryFinallyDisconnect {α : Type} (o : Oracle)
    (body : Except PyExc α × FS × List Event) : Except PyExc α × FS × List Event :=
  match o.disconnect with
  | .ok _ => (body.1, body.2.1, body.2.2 ++ [Event.disconnect])
  | .exn e => (.error e, body.2.1, body.2.2 ++ [Event.disconnect])

/-- `TelegramPNBAAdapter.send_authorization_code(phone_number, base_path)`. -/
def send_authorization_code (phone_number : String) (base_path : Option String)
    (fs : FS) (o : Oracle) : Except PyExc SendCodeResult × FS × List Event :=
  let ir := SessionRegistry.init phone_number base_path fs
  let registry := ir.1
  let gc := get_or_create_session_path registry.base_path phone_number true ir.2
  let fs2 := gc.2
  let body : Except PyExc SendCodeResult × FS × List Event :=
    match o.connect with
    | .exn e => (.error e, fs2, [Event.connect])
    | .ok _ =>
      match o.is_user_authorized with
      | .exn e => (.error e, fs2, [Event.connect, Event.isUserAuthorized])
      | .ok true =>
        (.ok ⟨false, "User is already authorized."⟩, fs2,
          [Event.connect, Event.isUserAuthorized])
      | .ok false =>
        match o.send_code_request with
        | .exn e =>
          (.error e, fs2,
            [Event.connect, Event.isUserAuthorized, Event.sendCodeRequest phone_number])
        | .ok result =>
          let fs3 := registry.update [("phone_code_hash", .jstr result.phone_code_hash)] fs2
          (.ok ⟨true, "Authorization code sent. Check your Telegram app."⟩, fs3,
            [Event.connect, Event.isUserAuthorized, Event.sendCodeRequest phone_number])
  tryFinallyDisconnect o body

/-- `TelegramPNBAAdapter.validate_code_and_fetch_user_info(phone_number, code,
base_path)`. -/
def validate_code_and_fetch_user_info (phone_number code : String)
    (base_path : Option String) (fs : FS) (o : Oracle) :
    Except PyExc ValidateCodeResult × FS × List Event :=
  let ir := SessionRegistry.init phone_number base_path fs
  let registry := ir.1
  let gc := get_or_create_session_path registry.base_path phone_number false ir.2
  let fs2 := gc.2
  let phone_code_hash := dictGet (registry.read fs2) "phone_code_hash"
  let body : Except PyExc ValidateCodeResult × FS × List Event :=
    match o.connect with
    | .exn e => (.error e, fs2, [Event.connect])
    | .ok _ =>
      match o.sign_in with
      | .exn PyExc.sessionPasswordNeeded =>
        (.ok ⟨true, ⟨phone_number, none⟩⟩, fs2,
          [Event.connect, Event.signIn phone_number phone_code_hash code])
      | .exn e =>
        (.error e, fs2, [Event.connect, Event.signIn phone_number phone_code_hash code])
      | .ok _ =>
        match o.get_me with
        | .exn e =>
          (.error e, fs2,
            [Event.connect, Event.signIn phone_number phone_code_hash code, Event.getMe])
        | .ok u =>
          let cl := registry.clear fs2
          (.ok ⟨false, ⟨phone_number, some u.first_name⟩⟩, cl.2,
            [Event.connect, Event.signIn phone_number phone_code_hash code,
              Event.getMe, Event.registryClear])
  tryFinallyDisconnect o body

/-- `TelegramPNBAAdapter.validate_password_and_fetch_user_info(phone_number,
password, base_path)`. -/
def validate_password_and_fetch_user_info (phone_number password : String)
    (base_path : Option String) (fs : FS) (o : Oracle) :
    Except PyExc ValidatePasswordResult × FS × List Event :=
  let ir := SessionRegistry.init phone_number base_path fs
  let registry := ir.1
  let gc := get_or_create_session_path registry.base_path phone_number false ir.2
  let fs2 := gc.2
  let phone_code_hash := dictGet (registry.read fs2) "phone_code_hash"
  let body : Except PyExc ValidatePasswordResult × FS × List Event :=
    match o.connect with
    | .exn e => (.error e, fs2, [Event.connect])
    | .ok _ =>
      match o.sign_in_password with
      | .exn e =>
        (.error e, fs2, [Event.connect, Event.signInPassword password phone_code_hash])
      | .ok _ =>
        match o.get_me with
        | .exn e =>
          (.error e, fs2,
            [Event.connect, Event.signInPassword password phone_code_hash, Event.getMe])
        | .ok u =>
          let cl := registry.clear fs2
          (.ok ⟨⟨phone_number, some u.first_name⟩⟩, cl.2,
            [Event.connect, Event.signInPassword password phone_code_hash,
              Event.getMe, Event.registryClear])
  tryFinallyDisconnect o body

/-- `TelegramPNBAAdapter.invalidate_session(phone_number, base_path)`. -/
def invalidate_session (phone_number : String) (base_path : Option String)
    (fs : FS) (o : Oracle) : Except PyExc Bool × FS × List Event :=
  let ir := SessionRegistry.init phone_number base_path fs
  let registry := ir.1
  let gc := get_or_create_session_path registry.base_path phone_number false ir.2
  let fs2 := gc.2
  let body : Except PyExc Bool × FS × List Event :=
    match o.connect with
    | .exn e => (.error e, fs2, [Event.connect])
    | .ok _ =>
      match o.log_out with
      | .exn e => (.error e, fs2, [Event.connect, Event.logOut])
      | .ok _ =>
        (.ok true, fs2.rmtree gc.1, [Event.connect, Event.logOut])
  tryFinallyDisconnect o body

/-- `TelegramPNBAAdapter.send_message(phone_number, recipient, message,
base_path)`. -/
def send_message (phone_number recipient message : String)
    (base_path : Option String) (fs : FS) (o : Oracle) :
    Except PyExc Bool × FS × List Event :=
  let ir := SessionRegistry.init phone_number base_path fs
  let gc := get_or_create_session_path ir.1.base_path phone_number false ir.2
  let fs2 := gc.2
  let body : Except PyExc Bool × FS × List Event :=
    match o.connect with
    | .exn e => (.error e, fs2, [Event.connect])
    | .ok _ =>
      match o.send_message_req with
      | .exn e =>
        (.error e, fs2, [Event.connect, Event.sendMessageReq recipient message])
      | .ok _ =>
        (.ok true, fs2, [Event.connect, Event.sendMessageReq recipient message])
  tryFinallyDisconnect o body

/-! ## Helper lemmas -/

theorem find_setFileAssoc (l : List (String × Record)) (p : String) (d : Record) :
    (FS.writeFile.setFileAssoc l p d).find? (fun q => q.1 == p) = some (p, d) := by
  induction l with
  | nil => simp [FS.writeFile.setFileAssoc]
  | cons hd tl ih =>
    by_cases h : hd.1 = p
    · simp [FS.writeFile.setFileAssoc, h]
    · simpa [FS.writeFile.setFileAssoc, h] using ih

theorem lookupFile_writeFile_self (fs : FS) (p : String) (d : Record) :
    lookupFile (fs.writeFile p d) p = some d := by
  simp [lookupFile, FS.writeFile, find_setFileAssoc]

theorem lookupFile_removeFile_self (fs : FS) (p : String) :
    lookupFile (fs.removeFile p) p = none := by
  have h : (fs.files.filter (fun q => !(q.1 == p))).find? (fun q => q.1 == p) = none := by
    rw [List.find?_eq_none]
    intro x hx
    have := List.of_mem_filter hx
    simpa using this
  simp [lookupFile, FS.removeFile, h]

theorem strPref_append (a b : String) : strPref a (a ++ b) = true := by
  obtain ⟨la⟩ := a
  obtain ⟨lb⟩ := b
  show listPref la (la ++ lb) = true
  induction la with
  | nil => rfl
  | cons c cs ih => simpa [listPref] using ih

theorem strPref_pjoin (d f : String) : strPref (d ++ "/") (pjoin d f) = true :=
  strPref_append (d ++ "/") f

theorem lookupFile_rmtree_under (fs : FS) (d q : String)
    (h : strPref (d ++ "/") q = true) : lookupFile (fs.rmtree d) q = none := by
  have hf : (fs.files.filter (fun x => !(strPref (d ++ "/") x.1))).find?
      (fun x => x.1 == q) = none := by
    rw [List.find?_eq_none]
    intro x hx
    have hmem := List.of_mem_filter hx
    intro hxq
    have : x.1 = q := by simpa using hxq
    rw [this, h] at hmem
    simp at hmem
  simp [lookupFile, FS.rmtree, hf]

theorem mkdirs_files (fs : FS) (p : String) : (fs.mkdirs p).files = fs.files := by
  simp only [FS.mkdirs]
  split <;> rfl

theorem lookupFile_mkdirs (fs : FS) (p q : String) :
    lookupFile (fs.mkdirs p) q = lookupFile fs q := by
  simp [lookupFile, mkdirs_files]

theorem isDir_mkdirs_self (fs : FS) (p : String) : (fs.mkdirs p).isDir p = true := by
  simp only [FS.mkdirs, FS.isDir]
  split
  · assumption
  · simp

theorem isDir_mkdirs_mono (fs : FS) (p q : String) (h : fs.isDir q = true) :
    (fs.mkdirs p).isDir q = true := by
  simp only [FS.mkdirs, FS.isDir] at *
  split
  · exact h
  · have hq : q ∈ fs.dirs := by simpa using h
    simp [hq]

/-! ## Claim theorems -/

/-- C6: for every record (a mapping of string keys to JSON values), a
`SessionRegistry.write` followed by a `SessionRegistry.read` on the same
registry returns the record that was written. -/
theorem claim_C6_write_read_roundtrip (r : SessionRegistry) (data : Record) (fs : FS) :
    SessionRegistry.read r (SessionRegistry.write r data fs) = data := by
  simp [SessionRegistry.read, SessionRegistry.write, lookupFile_writeFile_self]

/-- C7: when no registry record file exists, `update(k=v)` leaves the
registry in the same state as `write({k: v})`. -/
theorem claim_C7_update_on_empty_is_write (r : SessionRegistry) (k : String)
    (v : JsonVal) (fs : FS) (h : lookupFile fs r.registry_path = none) :
    SessionRegistry.update r [(k, v)] fs = SessionRegistry.write r [(k, v)] fs := by
  simp [SessionRegistry.update, SessionRegistry.read, h, dictUpdate, dictSet]

theorem claim_C7_witness :
    lookupFile ⟨[], []⟩ "sessions/d/registry.json" = none ∧
      SessionRegistry.update ⟨"sessions", "p", "sessions/d", "sessions/d/registry.json"⟩
          [("phone_code_hash", JsonVal.jstr "h")] ⟨[], []⟩ =
        SessionRegistry.write ⟨"sessions", "p", "sessions/d", "sessions/d/registry.json"⟩
          [("phone_code_hash", JsonVal.jstr "h")] ⟨[], []⟩ :=
  ⟨rfl, claim_C7_update_on_empty_is_write _ _ _ _ rfl⟩

/-- C8: when a registry record file exists, `clear()` returns `True` the
first time and `False` the second, and `read()` after either call returns
the empty mapping. -/
theorem claim_C8_clear_idempotent (r : SessionRegistry) (fs : FS)
    (h : fs.fileExists r.registry_path = true) :
    (SessionRegistry.clear r fs).1 = true ∧
      (SessionRegistry.clear r (SessionRegistry.clear r fs).2).1 = false ∧
      SessionRegistry.read r (SessionRegistry.clear r fs).2 = [] ∧
      SessionRegistry.read r (SessionRegistry.clear r (SessionRegistry.clear r fs).2).2 = [] := by
  have h2 : lookupFile (fs.removeFile r.registry_path) r.registry_path = none :=
    lookupFile_removeFile_self fs r.registry_path
  have h' : (lookupFile fs r.registry_path).isSome = true := h
  refine ⟨?_, ?_, ?_, ?_⟩ <;>
    simp [SessionRegistry.clear, SessionRegistry.read, FS.fileExists, h', h2]

theorem claim_C8_witness :
    (FS.fileExists ⟨["sessions", "sessions/d"], [("sessions/d/registry.json", [])]⟩
        "sessions/d/registry.json" = true) ∧
      (SessionRegistry.clear ⟨"sessions", "p", "sessions/d", "sessions/d/registry.json"⟩
        ⟨["sessions", "sessions/d"], [("sessions/d/registry.json", [])]⟩).1 = true :=
  ⟨rfl, (claim_C8_clear_idempotent
    ⟨"sessions", "p", "sessions/d", "sessions/d/registry.json"⟩
    ⟨["sessions", "sessions/d"], [("sessions/d/registry.json", [])]⟩ rfl).1⟩

theorem hasFilesUnder_rmtree_self (fs : FS) (d : String) :
    (fs.rmtree d).hasFilesUnder d = false := by
  simp only [FS.hasFilesUnder, FS.rmtree, List.any_eq_false]
  intro x hx
  have := List.of_mem_filter hx
  simpa using this

theorem hasFilesUnder_mkdirs (fs : FS) (p d : String) :
    (fs.mkdirs p).hasFilesUnder d = fs.hasFilesUnder d := by
  simp [FS.hasFilesUnder, mkdirs_files]

theorem lookupFile_none_of_no_files_under (fs : FS) (d q : String)
    (hq : strPref (d ++ "/") q = true) (h : fs.hasFilesUnder d = false) :
    lookupFile fs q = none := by
  simp only [FS.hasFilesUnder, List.any_eq_false] at h
  simp only [lookupFile]
  cases hf : fs.files.find? (fun x => x.1 == q) with
  | none => rfl
  | some x =>
    have hmem := List.mem_of_find?_eq_some hf
    have hpred := List.find?_some hf
    have hx1 : x.1 = q := by simpa using hpred
    have := h x hmem
    rw [hx1, hq] at this
    simp at this

theorem init_fst (phone : String) (bp : Option String) (fs : FS) :
    (SessionRegistry.init phone bp fs).1 =
      ⟨basePathOf bp, phone, sessionDirOf phone bp, registryPathOf phone bp⟩ := rfl

theorem init_isDir_session_dir (phone : String) (bp : Option String) (fs : FS) :
    (SessionRegistry.init phone bp fs).2.isDir (sessionDirOf phone bp) = true := by
  simp only [SessionRegistry.init, get_or_create_session_path, sessionDirOf]
  exact isDir_mkdirs_self _ _

/-- C2: constructing a `SessionRegistry` for a non-empty phone number always
destroys the existing session directory (the phone number is the truthy
`overwrite` argument) and recreates it empty: afterwards the registry record
file is gone, no file remains under the session directory, and the (fresh)
session directory exists.  The filesystem hypothesis says only that a
registry file cannot exist under a non-existent directory. -/
theorem claim_C2_init_destroys_registry (phone : String) (bp : Option String)
    (fs : FS) (hne : phone ≠ "")
    (hwf : fs.hasFilesUnder (sessionDirOf phone bp) = true →
      fs.isDir (sessionDirOf phone bp) = true) :
    lookupFile (SessionRegistry.init phone bp fs).2
        ((SessionRegistry.init phone bp fs).1.registry_path) = none ∧
      (SessionRegistry.init phone bp fs).2.hasFilesUnder
        ((SessionRegistry.init phone bp fs).1.session_dir) = false ∧
      (SessionRegistry.init phone bp fs).2.isDir
        ((SessionRegistry.init phone bp fs).1.session_dir) = true := by
  have htr : strTruthy phone = true := by
    simp [strTruthy]
    exact hne
  rw [init_fst]
  simp only [SessionRegistry.init, get_or_create_session_path, htr, Bool.true_and]
  by_cases hdir : (fs.mkdirs (basePathOf bp)).isDir (sessionDirOf phone bp) = true
  · simp only [sessionDirOf, basePathOf] at hdir ⊢
    rw [if_pos hdir]
    refine ⟨?_, ?_, isDir_mkdirs_self _ _⟩
    · rw [lookupFile_mkdirs]
      exact lookupFile_rmtree_under _ _ _ (strPref_pjoin _ _)
    · rw [hasFilesUnder_mkdirs]
      exact hasFilesUnder_rmtree_self _ _
  · have hfs : fs.isDir (sessionDirOf phone bp) = false := by
      by_contra hc
      exact hdir (isDir_mkdirs_mono _ _ _ (by simpa using hc))
    have hnf : fs.hasFilesUnder (sessionDirOf phone bp) = false := by
      by_contra hc
      rw [hwf (by simpa using hc)] at hfs
      simp at hfs
    have hnf' : (fs.mkdirs (basePathOf bp)).hasFilesUnder (sessionDirOf phone bp) = false := by
      rw [hasFilesUnder_mkdirs]
      exact hnf
    simp only [sessionDirOf, basePathOf] at hdir hnf' ⊢
    rw [if_neg (by simpa using hdir)]
    refine ⟨?_, ?_, isDir_mkdirs_self _ _⟩
    · rw [lookupFile_mkdirs]
      exact lookupFile_none_of_no_files_under _ _ _
        (by exact strPref_pjoin _ REGISTRY_FILENAME) (by exact hnf')
    · rw [hasFilesUnder_mkdirs]
      exact hnf'

theorem claim_C2_witness :
    ("+15551234567" ≠ "") ∧
      lookupFile
        (SessionRegistry.init "+15551234567" none
          ⟨["sessions", "sessions/dd065fdf4469ee22b6bb8b76408fa030"],
            [("sessions/dd065fdf4469ee22b6bb8b76408fa030/registry.json",
              [("phone_code_hash", JsonVal.jstr "stored")])]⟩).2
        ((SessionRegistry.init "+15551234567" none
          ⟨["sessions", "sessions/dd065fdf4469ee22b6bb8b76408fa030"],
            [("sessions/dd065fdf4469ee22b6bb8b76408fa030/registry.json",
              [("phone_code_hash", JsonVal.jstr "stored")])]⟩).1.registry_path) = none :=
  ⟨by decide,
    (claim_C2_init_destroys_registry "+15551234567" none
      ⟨["sessions", "sessions/dd065fdf4469ee22b6bb8b76408fa030"],
        [("sessions/dd065fdf4469ee22b6bb8b76408fa030/registry.json",
          [("phone_code_hash", JsonVal.jstr "stored")])]⟩
      (by decide) (fun _ => by decide)).1⟩

/-- The MD5 implementation agrees with the standard test vectors. -/
theorem md5Hex_known_vectors :
    md5HexOfString "" = "d41d8cd98f00b204e9800998ecf8427e" ∧
      md5HexOfString "abc" = "900150983cd24fb0d6963f7d28e17f72" := by
  constructor <;> rfl

/-- C9: the directory/session name derived from a phone number is the MD5
hex digest of its UTF-8 encoding, it does not depend on the filesystem state
(determinism across calls and restarts), and the session file's basename
equals the session directory's basename. -/
theorem claim_C9_md5_naming (phone : String) (bp : Option String) (fs fs' : FS) :
    (SessionRegistry.init phone bp fs).1.session_dir =
        pjoin (basePathOf bp) (md5Hex (utf8Encode phone)) ∧
      SessionRegistry.get_session_file_path (SessionRegistry.init phone bp fs).1 =
        pjoin ((SessionRegistry.init phone bp fs).1.session_dir)
          (md5Hex (utf8Encode phone)) ∧
      (SessionRegistry.init phone bp fs).1.session_dir =
        (SessionRegistry.init phone bp fs').1.session_dir :=
  ⟨rfl, rfl, rfl⟩

theorem tryFinallyDisconnect_last {α : Type} (o : Oracle)
    (body : Except PyExc α × FS × List Event) :
    (tryFinallyDisconnect o body).2.2.getLast? = some Event.disconnect := by
  cases h : o.disconnect <;> simp [tryFinallyDisconnect, h]

/-- C10: every adapter operation, whatever the outcome of each external
call (success, the distinguished alternate-path exception, or any other
error), executes the client disconnect as its final external step before
returning or propagating. -/
theorem claim_C10_disconnect_on_all_paths (phone code password recipient message : String)
    (bp : Option String) (fs : FS) (o : Oracle) :
    (send_authorization_code phone bp fs o).2.2.getLast? = some Event.disconnect ∧
      (validate_code_and_fetch_user_info phone code bp fs o).2.2.getLast? =
        some Event.disconnect ∧
      (validate_password_and_fetch_user_info phone password bp fs o).2.2.getLast? =
        some Event.disconnect ∧
      (invalidate_session phone bp fs o).2.2.getLast? = some Event.disconnect ∧
      (send_message phone recipient message bp fs o).2.2.getLast? =
        some Event.disconnect :=
  ⟨tryFinallyDisconnect_last o _, tryFinallyDisconnect_last o _,
    tryFinallyDisconnect_last o _, tryFinallyDisconnect_last o _,
    tryFinallyDisconnect_last o _⟩

theorem lookupFile_gocsp_overwrite (b ph f : String) (fs : FS)
    (h : fs.isDir (pjoin b (md5HexOfString ph)) = true) :
    lookupFile (get_or_create_session_path b ph true fs).2
      (pjoin (pjoin b (md5HexOfString ph)) f) = none := by
  simp only [get_or_create_session_path]
  have h1 : (fs.mkdirs b).isDir (pjoin b (md5HexOfString ph)) = true :=
    isDir_mkdirs_mono _ _ _ h
  rw [if_pos (by simp [h1])]
  rw [lookupFile_mkdirs]
  exact lookupFile_rmtree_under _ _ _ (strPref_pjoin _ _)

/-- C3: when the external service reports the user as already authorized,
`send_authorization_code` returns `{success: False, message: "User is
already authorized."}` without raising, and no registry record file exists
afterwards (`phone_code_hash` is not written). -/
theorem claim_C3_already_authorized (phone : String) (bp : Option String)
    (fs : FS) (o : Oracle) (hc : o.connect = .ok ())
    (ha : o.is_user_authorized = .ok true) (hd : o.disconnect = .ok ()) :
    (send_authorization_code phone bp fs o).1 =
        .ok ⟨false, "User is already authorized."⟩ ∧
      lookupFile (send_authorization_code phone bp fs o).2.1
        (registryPathOf phone bp) = none := by
  have hdir := init_isDir_session_dir phone bp fs
  simp only [send_authorization_code, tryFinallyDisconnect, hc, ha, hd, init_fst]
  refine ⟨trivial, ?_⟩
  simp only [registryPathOf, sessionDirOf]
  exact lookupFile_gocsp_overwrite _ _ _ _ hdir

theorem claim_C3_witness :
    (Oracle.mk (.ok ()) (.ok true) (.ok ⟨"HASH123"⟩) (.ok ()) (.ok ())
        (.ok ⟨"Alice"⟩) (.ok ()) (.ok ()) (.ok ())).connect = .ok () ∧
      (send_authorization_code "+15551234567" none ⟨[], []⟩
        (Oracle.mk (.ok ()) (.ok true) (.ok ⟨"HASH123"⟩) (.ok ()) (.ok ())
          (.ok ⟨"Alice"⟩) (.ok ()) (.ok ()) (.ok ()))).1 =
        .ok ⟨false, "User is already authorized."⟩ :=
  ⟨rfl, (claim_C3_already_authorized "+15551234567" none ⟨[], []⟩
    (Oracle.mk (.ok ()) (.ok true) (.ok ⟨"HASH123"⟩) (.ok ()) (.ok ())
      (.ok ⟨"Alice"⟩) (.ok ()) (.ok ()) (.ok ())) rfl rfl rfl).1⟩

/-- C4: when the external sign-in fails with the distinguished
second-factor-required error, `validate_code_and_fetch_user_info` does not
raise, returns `two_step_verification_enabled: True` with
`account_identifier` the phone number and `name: None`, and never invokes
the registry clear step. -/
theorem claim_C4_password_needed (phone code : String) (bp : Option String)
    (fs : FS) (o : Oracle) (hc : o.connect = .ok ())
    (hs : o.sign_in = .exn .sessionPasswordNeeded) (hd : o.disconnect = .ok ()) :
    (validate_code_and_fetch_user_info phone code bp fs o).1 =
        .ok ⟨true, ⟨phone, none⟩⟩ ∧
      Event.registryClear ∉ (validate_code_and_fetch_user_info phone code bp fs o).2.2 := by
  simp only [validate_code_and_fetch_user_info, tryFinallyDisconnect, hc, hs, hd]
  refine ⟨trivial, ?_⟩
  simp

theorem claim_C4_witness :
    (Oracle.mk (.ok ()) (.ok false) (.ok ⟨"HASH123"⟩)
        (.exn .sessionPasswordNeeded) (.ok ()) (.ok ⟨"Alice"⟩) (.ok ())
        (.ok ()) (.ok ())).sign_in = .exn .sessionPasswordNeeded ∧
      (validate_code_and_fetch_user_info "+15551234567" "12345" none ⟨[], []⟩
        (Oracle.mk (.ok ()) (.ok false) (.ok ⟨"HASH123"⟩)
          (.exn .sessionPasswordNeeded) (.ok ()) (.ok ⟨"Alice"⟩) (.ok ())
          (.ok ()) (.ok ()))).1 = .ok ⟨true, ⟨"+15551234567", none⟩⟩ :=
  ⟨rfl, (claim_C4_password_needed "+15551234567" "12345" none ⟨[], []⟩
    (Oracle.mk (.ok ()) (.ok false) (.ok ⟨"HASH123"⟩)
      (.exn .sessionPasswordNeeded) (.ok ()) (.ok ⟨"Alice"⟩) (.ok ())
      (.ok ()) (.ok ())) rfl rfl rfl).1⟩

theorem lookupFile_clear (r : SessionRegistry) (fs : FS) :
    lookupFile (SessionRegistry.clear r fs).2 r.registry_path = none := by
  simp only [SessionRegistry.clear, FS.fileExists]
  by_cases h : (lookupFile fs r.registry_path).isSome = true
  · rw [if_pos h]
    exact lookupFile_removeFile_self fs _
  · rw [if_neg h]
    exact Option.not_isSome_iff_eq_none.mp h

/-- C5: on a successful sign-in with no second factor,
`validate_code_and_fetch_user_info` returns
`two_step_verification_enabled: False` with `account_identifier` the phone
number and the (non-null) first name from `get_me`, and the registry record
file no longer exists afterwards. -/
theorem claim_C5_success_clears_registry (phone code : String) (bp : Option String)
    (fs : FS) (o : Oracle) (u : TgUser) (hc : o.connect = .ok ())
    (hs : o.sign_in = .ok ()) (hg : o.get_me = .ok u) (hd : o.disconnect = .ok ()) :
    (validate_code_and_fetch_user_info phone code bp fs o).1 =
        .ok ⟨false, ⟨phone, some u.first_name⟩⟩ ∧
      lookupFile (validate_code_and_fetch_user_info phone code bp fs o).2.1
        (registryPathOf phone bp) = none := by
  simp only [validate_code_and_fetch_user_info, tryFinallyDisconnect, hc, hs, hg, hd,
    init_fst]
  exact ⟨trivial, lookupFile_clear _ _⟩

theorem claim_C5_witness :
    (Oracle.mk (.ok ()) (.ok false) (.ok ⟨"HASH123"⟩) (.ok ()) (.ok ())
        (.ok ⟨"Alice"⟩) (.ok ()) (.ok ()) (.ok ())).get_me = .ok ⟨"Alice"⟩ ∧
      (validate_code_and_fetch_user_info "+15551234567" "12345" none ⟨[], []⟩
        (Oracle.mk (.ok ()) (.ok false) (.ok ⟨"HASH123"⟩) (.ok ()) (.ok ())
          (.ok ⟨"Alice"⟩) (.ok ()) (.ok ()) (.ok ()))).1 =
        .ok ⟨false, ⟨"+15551234567", some "Alice"⟩⟩ :=
  ⟨rfl, (claim_C5_success_clears_registry "+15551234567" "12345" none ⟨[], []⟩
    (Oracle.mk (.ok ()) (.ok false) (.ok ⟨"HASH123"⟩) (.ok ()) (.ok ())
      (.ok ⟨"Alice"⟩) (.ok ()) (.ok ()) (.ok ())) ⟨"Alice"⟩ rfl rfl rfl rfl).1⟩

/-- C1 is refuted by the code: after a `send_authorization_code` that stored
`phone_code_hash = "HASH123"` in the registry, the subsequent
`validate_code_and_fetch_user_info` passes `None` — not the stored token —
to the external sign-in call, because `SessionRegistry.__init__` passes the
(truthy) phone number as the `overwrite` argument and so deletes the
registry before reading it.  The first conjunct shows the token really was
stored by the send step; the second shows the sign-in event of the validate
step carries `none`. -/
theorem claim_C1_token_not_read :
    dictGet
        ((lookupFile
            (send_authorization_code "+15551234567" none ⟨[], []⟩
              (Oracle.mk (.ok ()) (.ok false) (.ok ⟨"HASH123"⟩) (.ok ()) (.ok ())
                (.ok ⟨"Alice"⟩) (.ok ()) (.ok ()) (.ok ()))).2.1
            (registryPathOf "+15551234567" none)).getD [])
        "phone_code_hash" = some (JsonVal.jstr "HASH123") ∧
      (validate_code_and_fetch_user_info "+15551234567" "12345" none
          (send_authorization_code "+15551234567" none ⟨[], []⟩
            (Oracle.mk (.ok ()) (.ok false) (.ok ⟨"HASH123"⟩) (.ok ()) (.ok ())
              (.ok ⟨"Alice"⟩) (.ok ()) (.ok ()) (.ok ()))).2.1
          (Oracle.mk (.ok ()) (.ok false) (.ok ⟨"HASH123"⟩) (.ok ()) (.ok ())
            (.ok ⟨"Alice"⟩) (.ok ()) (.ok ()) (.ok ()))).2.2 =
        [Event.connect, Event.signIn "+15551234567" none "12345", Event.getMe,
          Event.registryClear, Event.disconnect] :=
  ⟨rfl, rfl⟩
